import Mathlib

/-!
# FriendBook (src/app.py) — shallow embedding and verification

This file embeds the request handlers of the single-file Flask application
`src/app.py` ("FriendBook") as pure Lean functions over an explicit store,
session and form state, and proves the specified properties about them.

Modelling conventions:
* The relational store (tables `user`, `post`, `message`) is a `Store` of lists
  kept in insertion order, with explicit auto-increment counters; the database
  assigns ids `1, 2, 3, …`.
* The Flask session is an `Option Nat` holding the `user_id` key (or nothing).
* `request.form.get(key, "")` is modelled by `Option String` fields read with
  `Option.getD ""`; Python's `str.strip()` is `pyStrip`.
* A handler returns a `Result`: the store after the request (reflecting only
  committed writes — Flask-SQLAlchemy rolls back uncommitted attribute
  mutations when the session is removed at request teardown), the session, the
  HTTP response (redirect or page render), and the flash messages it emitted.
* `werkzeug.security.generate_password_hash` / `check_password_hash` are
  abstracted by a deterministic injective encoding with the contract the
  application relies on: verification succeeds exactly for the hashed password.
* The handlers that create content (`dashboard`, `chat`) additionally take a
  `now : Nat` argument modelling the ambient wall-clock time available to the
  handler during the request; the source never reads a clock, which is visible
  in the embedding as the result not depending on `now`.
-/

namespace FriendBook

/-- Abstraction of `werkzeug.security.generate_password_hash`: a deterministic
injective encoding of the password (the real function salts; the application
only relies on `check_password_hash (generate_password_hash pw) pw' ↔ pw = pw'`). -/
def generate_password_hash (pw : String) : String :=
  "pbkdf2:" ++ pw

/-- Abstraction of `werkzeug.security.check_password_hash`. -/
def check_password_hash (h pw : String) : Bool :=
  h == generate_password_hash pw

/-- Model of Python's `str.strip()`: drop leading and trailing whitespace.
Written structurally over the character list (equivalent to `String.trim` on
the inputs the application sees) so that concrete instances evaluate inside
the kernel. -/
def pyStrip (s : String) : String :=
  ⟨((s.data.dropWhile Char.isWhitespace).reverse.dropWhile Char.isWhitespace).reverse⟩

/-- Row of the `user` table (model `User`, src/app.py lines 28–40):
`id` (auto-increment primary key), unique `username`, `password_hash`, `about`. -/
structure User where
  id : Nat
  username : String
  password_hash : String
  about : String
  deriving Repr, DecidableEq

/-- Row of the `post` table (model `Post`, src/app.py lines 43–47):
`id`, `subject`, `body`, `user_id` — there is no timestamp column. -/
structure Post where
  id : Nat
  subject : String
  body : String
  user_id : Nat
  deriving Repr, DecidableEq

/-- Row of the `message` table (model `Message`, src/app.py lines 50–53):
`id`, `content`, `user_id` — there is no timestamp column. -/
structure Message where
  id : Nat
  content : String
  user_id : Nat
  deriving Repr, DecidableEq

/-- The relational store: the three tables in insertion order plus the
auto-increment counters (next id each table will assign; ids start at 1). -/
structure Store where
  users : List User
  posts : List Post
  messages : List Message
  nextUserId : Nat
  nextPostId : Nat
  nextMessageId : Nat
  deriving Repr, DecidableEq

/-- The application's endpoints (targets of `url_for`). -/
inductive Endpoint where
  | home | register | login | logout | dashboard | profile | settings | chat
  deriving Repr, DecidableEq

/-- A handler's HTTP response: a redirect to an endpoint, or a rendered page. -/
inductive Response where
  | redirect (target : Endpoint)
  | render (page : Endpoint)
  deriving Repr, DecidableEq

/-- One flash message: text and Bootstrap category. -/
structure Flash where
  message : String
  category : String
  deriving Repr, DecidableEq

/-- Everything a request produces: the store after the request (committed
writes only), the session after the request, the response, and the flash
messages emitted during the request. -/
structure Result where
  store : Store
  session : Option Nat
  response : Response
  flashes : List Flash
  deriving Repr, DecidableEq

/-- Model of `User.query.filter_by(username=name).first()`. -/
def findByUsername (users : List User) (name : String) : Option User :=
  users.find? (fun u => u.username == name)

/-- Model of `User.query.get(uid)`: primary-key lookup. -/
def getUser (users : List User) (uid : Nat) : Option User :=
  users.find? (fun u => u.id == uid)

/-- Helper `current_user()` (src/app.py lines 57–61): reads the session's
user id; `if uid:` makes a stored `0` behave like an absent key. -/
def current_user (s : Store) (sess : Option Nat) : Option User :=
  match sess with
  | none => none
  | some uid => if uid == 0 then none else getUser s.users uid

/-- Committing an ORM mutation of the user row with primary key `uid`:
the row is replaced by its mutated image `u'`. -/
def updateUser (users : List User) (uid : Nat) (u' : User) : List User :=
  users.map (fun u => if u.id == uid then u' else u)

/-- Number of `user` rows carrying a given username. -/
def countNamed (users : List User) (name : String) : Nat :=
  (users.filter (fun u => u.username == name)).length

/-- The `login_required` decorator (src/app.py lines 64–74): if
`current_user()` is absent, flash a warning and redirect to login without
running the wrapped handler body; otherwise run the body on the current user. -/
def login_required (s : Store) (sess : Option Nat) (body : User → Result) : Result :=
  match current_user s sess with
  | none => ⟨s, sess, .redirect .login, [⟨"Please log in first.", "warning"⟩]⟩
  | some user => body user

/-- Form fields of POST /register (`request.form.get(…, "")`). -/
structure RegisterForm where
  username : Option String
  password : Option String
  confirm_password : Option String
  about : Option String
  deriving Repr, DecidableEq

/-- Form fields of POST /login. -/
structure LoginForm where
  username : Option String
  password : Option String
  deriving Repr, DecidableEq

/-- Form fields of POST /dashboard. -/
structure PostForm where
  subject : Option String
  body : Option String
  deriving Repr, DecidableEq

/-- Form fields of POST /chat. -/
structure ChatForm where
  content : Option String
  deriving Repr, DecidableEq

/-- Form fields of POST /settings. -/
structure SettingsForm where
  username : Option String
  about : Option String
  current_password : Option String
  new_password : Option String
  confirm_new_password : Option String
  deriving Repr, DecidableEq

/-- POST /register (src/app.py lines 193–220). A logged-in client is
redirected to the dashboard before the form is examined. Otherwise: blank
required fields, mismatched passwords, or a taken username flash a message and
redirect back to the register page with nothing written; a valid submission
inserts a `User` with the hashed password and redirects to login. -/
def registerPost (s : Store) (sess : Option Nat) (form : RegisterForm) : Result :=
  match current_user s sess with
  | some _ => ⟨s, sess, .redirect .dashboard, []⟩
  | none =>
    let username := pyStrip (form.username.getD "")
    let password := form.password.getD ""
    let confirm := form.confirm_password.getD ""
    let about := pyStrip (form.about.getD "")
    if username = "" ∨ password = "" ∨ confirm = "" then
      ⟨s, sess, .redirect .register, [⟨"Please fill in all required fields.", "warning"⟩]⟩
    else if password ≠ confirm then
      ⟨s, sess, .redirect .register, [⟨"Passwords do not match.", "danger"⟩]⟩
    else if (findByUsername s.users username).isSome then
      ⟨s, sess, .redirect .register, [⟨"Username already taken.", "danger"⟩]⟩
    else
      let user : User := ⟨s.nextUserId, username, generate_password_hash password, about⟩
      ⟨{ s with users := s.users ++ [user], nextUserId := s.nextUserId + 1 },
        sess, .redirect .login, [⟨"Registration successful. Please log in.", "success"⟩]⟩

/-- POST /login (src/app.py lines 255–271). A logged-in client is redirected
to the dashboard before the form is examined. Otherwise: unknown username or
failed hash check flashes one generic message and redirects back to login; on
success the user's id is stored in the session and the client is redirected to
the dashboard. -/
def loginPost (s : Store) (sess : Option Nat) (form : LoginForm) : Result :=
  match current_user s sess with
  | some _ => ⟨s, sess, .redirect .dashboard, []⟩
  | none =>
    let username := pyStrip (form.username.getD "")
    let password := form.password.getD ""
    match findByUsername s.users username with
    | none => ⟨s, sess, .redirect .login, [⟨"Invalid username or password.", "danger"⟩]⟩
    | some user =>
      if check_password_hash user.password_hash password then
        ⟨s, some user.id, .redirect .dashboard, [⟨"Logged in successfully!", "success"⟩]⟩
      else
        ⟨s, sess, .redirect .login, [⟨"Invalid username or password.", "danger"⟩]⟩

/-- GET /logout (src/app.py lines 298–303): behind `login_required`; pops the
session's user id, flashes, redirects to login. -/
def logoutGet (s : Store) (sess : Option Nat) : Result :=
  login_required s sess fun _ =>
    ⟨s, none, .redirect .login, [⟨"You have been logged out.", "info"⟩]⟩

/-- GET /profile (src/app.py lines 363–380): behind `login_required`; renders
the current user's profile, touching nothing. -/
def profileGet (s : Store) (sess : Option Nat) : Result :=
  login_required s sess fun _ =>
    ⟨s, sess, .render .profile, []⟩

/-- POST /dashboard (src/app.py lines 306–321): behind `login_required`.
Blank (after strip) subject or body flashes a warning and re-renders the page
with nothing written; otherwise one `Post` row authored by the current user is
inserted and the client is redirected to the dashboard. `now` is the ambient
clock, which the source never reads. -/
def dashboardPost (now : Nat) (s : Store) (sess : Option Nat) (form : PostForm) : Result :=
  login_required s sess fun user =>
    let subject := pyStrip (form.subject.getD "")
    let body := pyStrip (form.body.getD "")
    if subject = "" ∨ body = "" then
      ⟨s, sess, .render .dashboard, [⟨"Subject and body cannot be empty.", "warning"⟩]⟩
    else
      let post : Post := ⟨s.nextPostId, subject, body, user.id⟩
      ⟨{ s with posts := s.posts ++ [post], nextPostId := s.nextPostId + 1 },
        sess, .redirect .dashboard, [⟨"Post created successfully!", "success"⟩]⟩

/-- POST /chat (src/app.py lines 462–473): behind `login_required`. Non-blank
(after strip) content inserts one `Message` row authored by the current user,
flashes success and redirects; blank content falls through silently to the
page render — the source has no `else` branch and flashes nothing. `now` is
the ambient clock, which the source never reads. -/
def chatPost (now : Nat) (s : Store) (sess : Option Nat) (form : ChatForm) : Result :=
  login_required s sess fun user =>
    let content := pyStrip (form.content.getD "")
    if content ≠ "" then
      let msg : Message := ⟨s.nextMessageId, content, user.id⟩
      ⟨{ s with messages := s.messages ++ [msg], nextMessageId := s.nextMessageId + 1 },
        sess, .redirect .chat, [⟨"Message sent!", "success"⟩]⟩
    else
      ⟨s, sess, .render .chat, []⟩

/-- Body of POST /settings (src/app.py lines 388–421), run on the current
user. The source mutates the ORM object in place (`user.username = …`,
`user.about = …`, `user.set_password(…)`) and commits once at the end; every
rejection path redirects before that commit, so the mutations are rolled back
at teardown and the store is returned unchanged on those paths. -/
def settingsPostBody (s : Store) (sess : Option Nat) (user : User) (form : SettingsForm) : Result :=
  let new_username := pyStrip (form.username.getD "")
  let about := pyStrip (form.about.getD "")
  let current_password := form.current_password.getD ""
  let new_password := form.new_password.getD ""
  let confirm_new_password := form.confirm_new_password.getD ""
  if (new_username ≠ "" ∧ new_username ≠ user.username) ∧ (findByUsername s.users new_username).isSome then
    ⟨s, sess, .redirect .settings, [⟨"Username already taken.", "danger"⟩]⟩
  else
    let user1 := if new_username ≠ "" ∧ new_username ≠ user.username then
      { user with username := new_username } else user
    let user2 := { user1 with about := about }
    if current_password ≠ "" ∨ new_password ≠ "" ∨ confirm_new_password ≠ "" then
      if current_password = "" then
        ⟨s, sess, .redirect .settings,
          [⟨"Please enter your current password to change password.", "warning"⟩]⟩
      else if ¬ check_password_hash user.password_hash current_password then
        ⟨s, sess, .redirect .settings, [⟨"Current password is incorrect.", "danger"⟩]⟩
      else if new_password ≠ confirm_new_password then
        ⟨s, sess, .redirect .settings, [⟨"New passwords do not match.", "danger"⟩]⟩
      else if new_password.length < 6 then
        ⟨s, sess, .redirect .settings, [⟨"New password must be at least 6 characters.", "warning"⟩]⟩
      else
        let user3 := { user2 with password_hash := generate_password_hash new_password }
        ⟨{ s with users := updateUser s.users user.id user3 },
          sess, .redirect .settings, [⟨"Settings updated successfully.", "success"⟩]⟩
    else
      ⟨{ s with users := updateUser s.users user.id user2 },
        sess, .redirect .settings, [⟨"Settings updated successfully.", "success"⟩]⟩

/-- POST /settings (src/app.py lines 383–421): `login_required` around
`settingsPostBody`. -/
def settingsPost (s : Store) (sess : Option Nat) (form : SettingsForm) : Result :=
  login_required s sess fun user => settingsPostBody s sess user form

/-- Stable insertion step of a descending sort by a numeric key. -/
def insertDescBy {α : Type} (key : α → Nat) (x : α) : List α → List α
  | [] => [x]
  | y :: ys => if key y ≤ key x then x :: y :: ys else y :: insertDescBy key x ys

/-- Sort descending by a numeric key (model of SQL `ORDER BY key DESC`). -/
def sortDescBy {α : Type} (key : α → Nat) : List α → List α
  | [] => []
  | x :: xs => insertDescBy key x (sortDescBy key xs)

/-- Stable insertion step of an ascending sort by a numeric key. -/
def insertAscBy {α : Type} (key : α → Nat) (x : α) : List α → List α
  | [] => [x]
  | y :: ys => if key x ≤ key y then x :: y :: ys else y :: insertAscBy key x ys

/-- Sort ascending by a numeric key (model of SQL `ORDER BY key`). -/
def sortAscBy {α : Type} (key : α → Nat) : List α → List α
  | [] => []
  | x :: xs => insertAscBy key x (sortAscBy key xs)

/-- Model of `Post.query.order_by(Post.id.desc()).all()` (src/app.py line
323): the dashboard feed, all posts by descending id. -/
def list_posts (s : Store) : List Post :=
  sortDescBy Post.id s.posts

/-- Model of `Message.query.order_by(Message.id).all()` (src/app.py line
475): the chat transcript, all messages by ascending id. -/
def list_messages (s : Store) : List Message :=
  sortAscBy Message.id s.messages

/-! ## Sample data used by witnesses and counterexamples -/

/-- A store with all three tables empty (fresh database). -/
def emptyStore : Store :=
  ⟨[], [], [], 1, 1, 1⟩

/-- Sample user: alice, id 1, password "pw123456". -/
def alice : User :=
  ⟨1, "alice", generate_password_hash "pw123456", ""⟩

/-- A store holding only alice. -/
def aliceStore : Store :=
  ⟨[alice], [], [], 2, 1, 1⟩

/-! ## C1 — register -/

/-- C1 (counterexample): a POST to /register from a session that is already
logged in (alice, id 1) with a fresh username and matching non-blank
passwords creates no user, flashes nothing, and redirects to the dashboard —
not to login — because the handler returns before reading the form. -/
theorem register_authenticated_cx :
    (registerPost aliceStore (some 1) ⟨some "bob", some "secret99", some "secret99", none⟩).store.users
      = aliceStore.users
    ∧ (registerPost aliceStore (some 1) ⟨some "bob", some "secret99", some "secret99", none⟩).response
      = .redirect .dashboard
    ∧ (registerPost aliceStore (some 1) ⟨some "bob", some "secret99", some "secret99", none⟩).flashes
      = [] :=
  ⟨rfl, rfl, rfl⟩

/-- C1 (amended: restricted to requests whose session holds no current user;
a logged-in POST is redirected to the dashboard untouched): blank username,
password or confirmation, mismatched passwords, or an already-existing
username each flash a user-visible message and redirect back to /register
with the store — in particular the user table and the number of rows carrying
the submitted name — unchanged; otherwise exactly one `User` row whose stored
password is the hash of the submitted password is appended and the response
redirects to login. -/
theorem register_anonymous_behavior (s : Store) (sess : Option Nat) (form : RegisterForm)
    (hanon : current_user s sess = none) :
    ((pyStrip (form.username.getD "") = "" ∨ form.password.getD "" = "" ∨ form.confirm_password.getD "" = "") →
       registerPost s sess form
         = ⟨s, sess, .redirect .register, [⟨"Please fill in all required fields.", "warning"⟩]⟩)
    ∧ (¬ (pyStrip (form.username.getD "") = "" ∨ form.password.getD "" = "" ∨ form.confirm_password.getD "" = "") →
       form.password.getD "" ≠ form.confirm_password.getD "" →
       registerPost s sess form
         = ⟨s, sess, .redirect .register, [⟨"Passwords do not match.", "danger"⟩]⟩)
    ∧ (¬ (pyStrip (form.username.getD "") = "" ∨ form.password.getD "" = "" ∨ form.confirm_password.getD "" = "") →
       form.password.getD "" = form.confirm_password.getD "" →
       (findByUsername s.users (pyStrip (form.username.getD ""))).isSome →
       registerPost s sess form
         = ⟨s, sess, .redirect .register, [⟨"Username already taken.", "danger"⟩]⟩
       ∧ countNamed (registerPost s sess form).store.users (pyStrip (form.username.getD ""))
           = countNamed s.users (pyStrip (form.username.getD "")))
    ∧ (¬ (pyStrip (form.username.getD "") = "" ∨ form.password.getD "" = "" ∨ form.confirm_password.getD "" = "") →
       form.password.getD "" = form.confirm_password.getD "" →
       findByUsername s.users (pyStrip (form.username.getD "")) = none →
       registerPost s sess form
         = ⟨{ s with
              users := s.users ++ [⟨s.nextUserId, pyStrip (form.username.getD ""),
                generate_password_hash (form.password.getD ""), pyStrip (form.about.getD "")⟩],
              nextUserId := s.nextUserId + 1 },
            sess, .redirect .login, [⟨"Registration successful. Please log in.", "success"⟩]⟩) := by
  refine ⟨?_, ?_, ?_, ?_⟩
  · intro hblank
    simp only [registerPost, hanon]
    rw [if_pos hblank]
  · intro hblank hpc
    simp only [registerPost, hanon]
    rw [if_neg hblank, if_pos hpc]
  · intro hblank hpc hdup
    have heq : registerPost s sess form
        = ⟨s, sess, .redirect .register, [⟨"Username already taken.", "danger"⟩]⟩ := by
      simp only [registerPost, hanon]
      rw [if_neg hblank, if_neg (not_not_intro hpc), if_pos hdup]
    exact ⟨heq, by rw [heq]⟩
  · intro hblank hpc hfresh
    simp only [registerPost, hanon]
    rw [if_neg hblank, if_neg (not_not_intro hpc), if_neg (by simp [hfresh])]

/-- C1 witness: on a fresh database an anonymous registration of alice
succeeds, appends exactly her row with the hashed password, and redirects to
login. -/
theorem register_anonymous_behavior_w :
    registerPost emptyStore none ⟨some "alice", some "pw123456", some "pw123456", none⟩
      = ⟨⟨[⟨1, "alice", generate_password_hash "pw123456", ""⟩], [], [], 2, 1, 1⟩,
          none, .redirect .login, [⟨"Registration successful. Please log in.", "success"⟩]⟩ :=
  (register_anonymous_behavior emptyStore none
      ⟨some "alice", some "pw123456", some "pw123456", none⟩ rfl).2.2.2
    (by decide) rfl rfl

/-! ## C2 — login -/

/-- C2 (counterexample): a POST to /login from a session that is already
logged in (alice, id 1) with a nonexistent username flashes nothing — in
particular no invalid-credentials message — and redirects to the dashboard,
because the handler returns before reading the form. -/
theorem login_authenticated_cx :
    (loginPost aliceStore (some 1) ⟨some "nosuch", some "whatever"⟩).flashes = []
    ∧ (loginPost aliceStore (some 1) ⟨some "nosuch", some "whatever"⟩).response
      = .redirect .dashboard
    ∧ (loginPost aliceStore (some 1) ⟨some "nosuch", some "whatever"⟩).session = some 1 :=
  ⟨rfl, rfl, rfl⟩

/-- C2 (amended: restricted to requests whose session holds no current user;
a logged-in POST is redirected to the dashboard untouched): an unknown
username or a failed hash check leaves the session and store unchanged and
flashes the one generic invalid-credentials message; a known username with a
successful hash check stores that user's id in the session and redirects to
the dashboard. -/
theorem login_anonymous_behavior (s : Store) (sess : Option Nat) (form : LoginForm)
    (hanon : current_user s sess = none) :
    (findByUsername s.users (pyStrip (form.username.getD "")) = none →
       loginPost s sess form
         = ⟨s, sess, .redirect .login, [⟨"Invalid username or password.", "danger"⟩]⟩)
    ∧ (∀ user, findByUsername s.users (pyStrip (form.username.getD "")) = some user →
       (check_password_hash user.password_hash (form.password.getD "") = false →
          loginPost s sess form
            = ⟨s, sess, .redirect .login, [⟨"Invalid username or password.", "danger"⟩]⟩)
       ∧ (check_password_hash user.password_hash (form.password.getD "") = true →
          loginPost s sess form
            = ⟨s, some user.id, .redirect .dashboard, [⟨"Logged in successfully!", "success"⟩]⟩)) := by
  constructor
  · intro hnone
    simp only [loginPost, hanon, hnone]
  · intro user hfound
    constructor
    · intro hchk
      simp only [loginPost, hanon, hfound, hchk]
      rw [if_neg (by simp [hchk])]
    · intro hchk
      simp only [loginPost, hanon, hfound]
      rw [if_pos hchk]

/-- C2 witness: in a store holding alice, an anonymous POST with her correct
credentials stores id 1 in the session and redirects to the dashboard, and a
POST with a wrong password leaves the session empty with the generic
message. -/
theorem login_anonymous_behavior_w :
    loginPost aliceStore none ⟨some "alice", some "pw123456"⟩
      = ⟨aliceStore, some 1, .redirect .dashboard, [⟨"Logged in successfully!", "success"⟩]⟩
    ∧ loginPost aliceStore none ⟨some "alice", some "wrong"⟩
      = ⟨aliceStore, none, .redirect .login, [⟨"Invalid username or password.", "danger"⟩]⟩ :=
  ⟨((login_anonymous_behavior aliceStore none ⟨some "alice", some "pw123456"⟩ rfl).2
      alice rfl).2 (by decide),
   ((login_anonymous_behavior aliceStore none ⟨some "alice", some "wrong"⟩ rfl).2
      alice rfl).1 (by decide)⟩

/-! ## C3 — login_required gate -/

/-- C3: every protected route (dashboard, chat, settings, profile, logout)
invoked with a session holding no valid user id returns the store and session
unchanged, a redirect to login, and the log-in-first flash — independently of
the submitted form, so the handler body never runs. -/
theorem protected_routes_gate (now : Nat) (s : Store) (sess : Option Nat)
    (pform : PostForm) (cform : ChatForm) (sform : SettingsForm)
    (hanon : current_user s sess = none) :
    dashboardPost now s sess pform
      = ⟨s, sess, .redirect .login, [⟨"Please log in first.", "warning"⟩]⟩
    ∧ chatPost now s sess cform
      = ⟨s, sess, .redirect .login, [⟨"Please log in first.", "warning"⟩]⟩
    ∧ settingsPost s sess sform
      = ⟨s, sess, .redirect .login, [⟨"Please log in first.", "warning"⟩]⟩
    ∧ profileGet s sess
      = ⟨s, sess, .redirect .login, [⟨"Please log in first.", "warning"⟩]⟩
    ∧ logoutGet s sess
      = ⟨s, sess, .redirect .login, [⟨"Please log in first.", "warning"⟩]⟩ := by
  refine ⟨?_, ?_, ?_, ?_, ?_⟩ <;>
    simp only [dashboardPost, chatPost, settingsPost, profileGet, logoutGet, login_required, hanon]

/-- C3 witness: a request with an empty session against the store holding
alice is turned away from all five protected routes. -/
theorem protected_routes_gate_w :
    dashboardPost 0 aliceStore none ⟨none, none⟩
      = ⟨aliceStore, none, .redirect .login, [⟨"Please log in first.", "warning"⟩]⟩
    ∧ chatPost 0 aliceStore none ⟨none⟩
      = ⟨aliceStore, none, .redirect .login, [⟨"Please log in first.", "warning"⟩]⟩
    ∧ settingsPost aliceStore none ⟨none, none, none, none, none⟩
      = ⟨aliceStore, none, .redirect .login, [⟨"Please log in first.", "warning"⟩]⟩
    ∧ profileGet aliceStore none
      = ⟨aliceStore, none, .redirect .login, [⟨"Please log in first.", "warning"⟩]⟩
    ∧ logoutGet aliceStore none
      = ⟨aliceStore, none, .redirect .login, [⟨"Please log in first.", "warning"⟩]⟩ :=
  protected_routes_gate 0 aliceStore none ⟨none, none⟩ ⟨none⟩ ⟨none, none, none, none, none⟩ rfl

/-! ## C4 — Post/Message records and timestamps -/

/-- C4 (counterexample): the same successful post and chat submissions made
at two different clock times (3 and 7) produce byte-for-byte identical
results, and the inserted rows — shown in full — consist of id, subject/body
or content, and author id only: no creation time is part of the stored
record, because `Post` and `Message` have no timestamp column. -/
theorem records_no_timestamp_cx :
    dashboardPost 3 aliceStore (some 1) ⟨some "hi", some "there"⟩
      = dashboardPost 7 aliceStore (some 1) ⟨some "hi", some "there"⟩
    ∧ (dashboardPost 3 aliceStore (some 1) ⟨some "hi", some "there"⟩).store.posts
      = [⟨1, "hi", "there", 1⟩]
    ∧ chatPost 3 aliceStore (some 1) ⟨some "hello"⟩
      = chatPost 7 aliceStore (some 1) ⟨some "hello"⟩
    ∧ (chatPost 3 aliceStore (some 1) ⟨some "hello"⟩).store.messages
      = [⟨1, "hello", 1⟩] :=
  ⟨rfl, rfl, rfl, rfl⟩

/-- C4 (amended): `Post` and `Message` rows carry no timestamp — a successful
create_post or send_message stamps the inserted row with the current user
only, the handler's result being independent of the current time; creation
order is captured by the auto-incrementing id instead. -/
theorem records_author_stamp_time_independent (now now' : Nat) (s : Store) (sess : Option Nat)
    (user : User) (pform : PostForm) (cform : ChatForm)
    (hcu : current_user s sess = some user)
    (hs : pyStrip (pform.subject.getD "") ≠ "") (hb : pyStrip (pform.body.getD "") ≠ "")
    (hc : pyStrip (cform.content.getD "") ≠ "") :
    dashboardPost now s sess pform = dashboardPost now' s sess pform
    ∧ (dashboardPost now s sess pform).store.posts
      = s.posts ++ [⟨s.nextPostId, pyStrip (pform.subject.getD ""), pyStrip (pform.body.getD ""), user.id⟩]
    ∧ chatPost now s sess cform = chatPost now' s sess cform
    ∧ (chatPost now s sess cform).store.messages
      = s.messages ++ [⟨s.nextMessageId, pyStrip (cform.content.getD ""), user.id⟩] := by
  refine ⟨rfl, ?_, rfl, ?_⟩
  · simp only [dashboardPost, login_required, hcu]
    rw [if_neg (not_or.mpr ⟨hs, hb⟩)]
  · simp only [chatPost, login_required, hcu]
    rw [if_pos hc]

/-- C4 witness: alice posts "hi"/"there" and sends "hello"; at times 3 and 7
the outcomes coincide and the inserted rows carry her id and no time. -/
theorem records_author_stamp_time_independent_w :
    dashboardPost 3 aliceStore (some 1) ⟨some "hi", some "there"⟩
      = dashboardPost 7 aliceStore (some 1) ⟨some "hi", some "there"⟩
    ∧ (dashboardPost 3 aliceStore (some 1) ⟨some "hi", some "there"⟩).store.posts
      = [⟨1, "hi", "there", 1⟩]
    ∧ chatPost 3 aliceStore (some 1) ⟨some "hello"⟩
      = chatPost 7 aliceStore (some 1) ⟨some "hello"⟩
    ∧ (chatPost 3 aliceStore (some 1) ⟨some "hello"⟩).store.messages
      = [⟨1, "hello", 1⟩] :=
  records_author_stamp_time_independent 3 7 aliceStore (some 1) alice
    ⟨some "hi", some "there"⟩ ⟨some "hello"⟩ rfl (by decide) (by decide) (by decide)

/-! ## C5 — ordering of the feed and the chat transcript -/

/-- Inserting below all strictly larger keys lands at the end. -/
theorem insertDescBy_append {α : Type} (key : α → Nat) (x : α) (l : List α)
    (h : ∀ y ∈ l, key x < key y) : insertDescBy key x l = l ++ [x] := by
  induction l with
  | nil => rfl
  | cons y ys ih =>
    rw [insertDescBy, if_neg (not_le.mpr (h y (List.mem_cons_self y ys)))]
    rw [ih (fun z hz => h z (List.mem_cons_of_mem y hz))]
    rfl

/-- A list with strictly increasing keys sorts descending to its reverse. -/
theorem sortDescBy_of_pairwise {α : Type} (key : α → Nat) (l : List α)
    (h : List.Pairwise (fun a b => key a < key b) l) :
    sortDescBy key l = l.reverse := by
  induction l with
  | nil => rfl
  | cons x xs ih =>
    rw [sortDescBy, ih h.of_cons,
      insertDescBy_append key x xs.reverse
        (fun y hy => (List.pairwise_cons.mp h).1 y (List.mem_reverse.mp hy)),
      List.reverse_cons]

/-- Inserting below all strictly larger keys lands at the front. -/
theorem insertAscBy_cons {α : Type} (key : α → Nat) (x : α) (l : List α)
    (h : ∀ y ∈ l, key x < key y) : insertAscBy key x l = x :: l := by
  cases l with
  | nil => rfl
  | cons y ys =>
    rw [insertAscBy, if_pos (Nat.le_of_lt (h y (List.mem_cons_self y ys)))]

/-- A list with strictly increasing keys is already sorted ascending. -/
theorem sortAscBy_of_pairwise {α : Type} (key : α → Nat) (l : List α)
    (h : List.Pairwise (fun a b => key a < key b) l) :
    sortAscBy key l = l := by
  induction l with
  | nil => rfl
  | cons x xs ih =>
    rw [sortAscBy, ih h.of_cons, insertAscBy_cons key x xs (List.pairwise_cons.mp h).1]

/-- C5: when row ids increase along insertion order — which the
auto-increment counters guarantee — the dashboard feed `list_posts` returns
every stored post newest first (the reverse of creation order, so two posts
by the same user appear consistently with their creation order), and the chat
transcript `list_messages` returns every stored message oldest first (exactly
insertion order). -/
theorem feed_and_chat_order (s : Store)
    (hp : List.Pairwise (fun a b => a.id < b.id) s.posts)
    (hm : List.Pairwise (fun a b => a.id < b.id) s.messages) :
    list_posts s = s.posts.reverse ∧ list_messages s = s.messages :=
  ⟨sortDescBy_of_pairwise Post.id s.posts hp, sortAscBy_of_pairwise Message.id s.messages hm⟩

/-- A store in which alice has made two posts and two chat messages, in that
order. -/
def sampleFeedStore : Store :=
  ⟨[alice], [⟨1, "first subject", "b1", 1⟩, ⟨2, "second subject", "b2", 1⟩],
    [⟨1, "first message", 1⟩, ⟨2, "second message", 1⟩], 2, 3, 3⟩

/-- C5 witness: with two posts and two messages inserted in order, the feed
lists the second post first and the chat lists the first message first. -/
theorem feed_and_chat_order_w :
    list_posts sampleFeedStore
      = [⟨2, "second subject", "b2", 1⟩, ⟨1, "first subject", "b1", 1⟩]
    ∧ list_messages sampleFeedStore
      = [⟨1, "first message", 1⟩, ⟨2, "second message", 1⟩] :=
  feed_and_chat_order sampleFeedStore (by decide) (by decide)

/-! ## C6 — post creation validation -/

/-- C6: a POST to /dashboard by the current user with blank (after stripping)
subject or body persists nothing — the store is returned unchanged — and
flashes the inline warning over a re-render of the page; with both non-blank,
exactly one `Post` row authored by the current user is appended. -/
theorem create_post_validation (now : Nat) (s : Store) (sess : Option Nat) (user : User)
    (form : PostForm) (hcu : current_user s sess = some user) :
    ((pyStrip (form.subject.getD "") = "" ∨ pyStrip (form.body.getD "") = "") →
       dashboardPost now s sess form
         = ⟨s, sess, .render .dashboard, [⟨"Subject and body cannot be empty.", "warning"⟩]⟩)
    ∧ (pyStrip (form.subject.getD "") ≠ "" → pyStrip (form.body.getD "") ≠ "" →
       dashboardPost now s sess form
         = ⟨{ s with
              posts := s.posts ++ [⟨s.nextPostId, pyStrip (form.subject.getD ""),
                pyStrip (form.body.getD ""), user.id⟩],
              nextPostId := s.nextPostId + 1 },
            sess, .redirect .dashboard, [⟨"Post created successfully!", "success"⟩]⟩) := by
  constructor
  · intro hblank
    simp only [dashboardPost, login_required, hcu]
    rw [if_pos hblank]
  · intro hs hb
    simp only [dashboardPost, login_required, hcu]
    rw [if_neg (not_or.mpr ⟨hs, hb⟩)]

/-- C6 witness: alice's POST with a whitespace-only subject changes nothing
and flashes the warning; her POST with subject "hi" and body "there" appends
exactly that row. -/
theorem create_post_validation_w :
    dashboardPost 0 aliceStore (some 1) ⟨some "   ", some "there"⟩
      = ⟨aliceStore, some 1, .render .dashboard, [⟨"Subject and body cannot be empty.", "warning"⟩]⟩
    ∧ dashboardPost 0 aliceStore (some 1) ⟨some "hi", some "there"⟩
      = ⟨⟨[alice], [⟨1, "hi", "there", 1⟩], [], 2, 2, 1⟩,
          some 1, .redirect .dashboard, [⟨"Post created successfully!", "success"⟩]⟩ :=
  ⟨(create_post_validation 0 aliceStore (some 1) alice ⟨some "   ", some "there"⟩ rfl).1
      (Or.inl (by decide)),
   (create_post_validation 0 aliceStore (some 1) alice ⟨some "hi", some "there"⟩ rfl).2
      (by decide) (by decide)⟩

/-! ## C7 — chat message validation -/

/-- C7 (counterexample): alice's POST to /chat with whitespace-only content
persists nothing but also flashes nothing — the claimed inline flash message
does not exist; the page is silently re-rendered, because the source's
`if content:` has no else branch. -/
theorem blank_message_silent_cx :
    (chatPost 0 aliceStore (some 1) ⟨some "   "⟩).store = aliceStore
    ∧ (chatPost 0 aliceStore (some 1) ⟨some "   "⟩).flashes = []
    ∧ (chatPost 0 aliceStore (some 1) ⟨some "   "⟩).response = .render .chat :=
  ⟨rfl, rfl, rfl⟩

/-- C7 (amended): a POST to /chat by the current user with blank (after
stripping) text persists no `Message` row and silently re-renders the chat
page with no flash message; with non-blank text exactly one `Message` row
authored by the current user is appended, with a success flash and a
redirect. -/
theorem send_message_validation (now : Nat) (s : Store) (sess : Option Nat) (user : User)
    (form : ChatForm) (hcu : current_user s sess = some user) :
    (pyStrip (form.content.getD "") = "" →
       chatPost now s sess form = ⟨s, sess, .render .chat, []⟩)
    ∧ (pyStrip (form.content.getD "") ≠ "" →
       chatPost now s sess form
         = ⟨{ s with
              messages := s.messages ++ [⟨s.nextMessageId, pyStrip (form.content.getD ""), user.id⟩],
              nextMessageId := s.nextMessageId + 1 },
            sess, .redirect .chat, [⟨"Message sent!", "success"⟩]⟩) := by
  constructor
  · intro hblank
    simp only [chatPost, login_required, hcu]
    rw [if_neg (not_not_intro hblank)]
  · intro hc
    simp only [chatPost, login_required, hcu]
    rw [if_pos hc]

/-- C7 witness: alice's blank chat POST changes nothing and flashes nothing;
her POST of "hello" appends exactly that message row. -/
theorem send_message_validation_w :
    chatPost 0 aliceStore (some 1) ⟨some "   "⟩
      = ⟨aliceStore, some 1, .render .chat, []⟩
    ∧ chatPost 0 aliceStore (some 1) ⟨some "hello"⟩
      = ⟨⟨[alice], [], [⟨1, "hello", 1⟩], 2, 1, 2⟩,
          some 1, .redirect .chat, [⟨"Message sent!", "success"⟩]⟩ :=
  ⟨(send_message_validation 0 aliceStore (some 1) alice ⟨some "   "⟩ rfl).1 (by decide),
   (send_message_validation 0 aliceStore (some 1) alice ⟨some "hello"⟩ rfl).2 (by decide)⟩

/-! ## Settings: branch lemmas shared by C8, C9, C10 -/

/-- Behind its gate, POST /settings runs its body on the current user. -/
theorem settingsPost_unfold (s : Store) (sess : Option Nat) (user : User) (form : SettingsForm)
    (hcu : current_user s sess = some user) :
    settingsPost s sess form = settingsPostBody s sess user form := by
  simp only [settingsPost, login_required, hcu]

/-- Settings branch: a requested rename to a name some user row already
carries is rejected before anything else happens. -/
theorem settingsPostBody_collision (s : Store) (sess : Option Nat) (user : User)
    (form : SettingsForm)
    (h : (pyStrip (form.username.getD "") ≠ "" ∧ pyStrip (form.username.getD "") ≠ user.username)
      ∧ (findByUsername s.users (pyStrip (form.username.getD ""))).isSome) :
    settingsPostBody s sess user form
      = ⟨s, sess, .redirect .settings, [⟨"Username already taken.", "danger"⟩]⟩ := by
  simp only [settingsPostBody]
  rw [if_pos h]

/-- Settings branch: a password change requested without the current
password is rejected. -/
theorem settingsPostBody_no_current (s : Store) (sess : Option Nat) (user : User)
    (form : SettingsForm)
    (hno : ¬ ((pyStrip (form.username.getD "") ≠ "" ∧ pyStrip (form.username.getD "") ≠ user.username)
      ∧ (findByUsername s.users (pyStrip (form.username.getD ""))).isSome))
    (hcp : form.current_password.getD "" = "")
    (hany : form.new_password.getD "" ≠ "" ∨ form.confirm_new_password.getD "" ≠ "") :
    settingsPostBody s sess user form
      = ⟨s, sess, .redirect .settings,
          [⟨"Please enter your current password to change password.", "warning"⟩]⟩ := by
  simp only [settingsPostBody]
  rw [if_neg hno, if_pos (Or.inr hany), if_pos hcp]

/-- Settings branch: a password change with a current password that fails
the hash check is rejected. -/
theorem settingsPostBody_bad_current (s : Store) (sess : Option Nat) (user : User)
    (form : SettingsForm)
    (hno : ¬ ((pyStrip (form.username.getD "") ≠ "" ∧ pyStrip (form.username.getD "") ≠ user.username)
      ∧ (findByUsername s.users (pyStrip (form.username.getD ""))).isSome))
    (hcp : form.current_password.getD "" ≠ "")
    (hchk : ¬ check_password_hash user.password_hash (form.current_password.getD "")) :
    settingsPostBody s sess user form
      = ⟨s, sess, .redirect .settings, [⟨"Current password is incorrect.", "danger"⟩]⟩ := by
  simp only [settingsPostBody]
  rw [if_neg hno, if_pos (Or.inl hcp), if_neg hcp, if_pos hchk]

/-- Settings branch: a password change whose new password and confirmation
differ is rejected. -/
theorem settingsPostBody_mismatch (s : Store) (sess : Option Nat) (user : User)
    (form : SettingsForm)
    (hno : ¬ ((pyStrip (form.username.getD "") ≠ "" ∧ pyStrip (form.username.getD "") ≠ user.username)
      ∧ (findByUsername s.users (pyStrip (form.username.getD ""))).isSome))
    (hcp : form.current_password.getD "" ≠ "")
    (hchk : check_password_hash user.password_hash (form.current_password.getD ""))
    (hne : form.new_password.getD "" ≠ form.confirm_new_password.getD "") :
    settingsPostBody s sess user form
      = ⟨s, sess, .redirect .settings, [⟨"New passwords do not match.", "danger"⟩]⟩ := by
  simp only [settingsPostBody]
  rw [if_neg hno, if_pos (Or.inl hcp), if_neg hcp, if_neg (not_not_intro hchk), if_pos hne]

/-- Settings branch: a password change whose new password is shorter than 6
characters is rejected. -/
theorem settingsPostBody_short (s : Store) (sess : Option Nat) (user : User)
    (form : SettingsForm)
    (hno : ¬ ((pyStrip (form.username.getD "") ≠ "" ∧ pyStrip (form.username.getD "") ≠ user.username)
      ∧ (findByUsername s.users (pyStrip (form.username.getD ""))).isSome))
    (hcp : form.current_password.getD "" ≠ "")
    (hchk : check_password_hash user.password_hash (form.current_password.getD ""))
    (heq : form.new_password.getD "" = form.confirm_new_password.getD "")
    (hlen : (form.new_password.getD "").length < 6) :
    settingsPostBody s sess user form
      = ⟨s, sess, .redirect .settings,
          [⟨"New password must be at least 6 characters.", "warning"⟩]⟩ := by
  simp only [settingsPostBody]
  rw [if_neg hno, if_pos (Or.inl hcp), if_neg hcp, if_neg (not_not_intro hchk),
    if_neg (not_not_intro heq), if_pos hlen]

/-- Settings branch: a valid password change commits the row with the new
hash, the (possibly renamed) username, and the submitted about text. -/
theorem settingsPostBody_commit_pw (s : Store) (sess : Option Nat) (user : User)
    (form : SettingsForm)
    (hno : ¬ ((pyStrip (form.username.getD "") ≠ "" ∧ pyStrip (form.username.getD "") ≠ user.username)
      ∧ (findByUsername s.users (pyStrip (form.username.getD ""))).isSome))
    (hcp : form.current_password.getD "" ≠ "")
    (hchk : check_password_hash user.password_hash (form.current_password.getD ""))
    (heq : form.new_password.getD "" = form.confirm_new_password.getD "")
    (hlen : ¬ (form.new_password.getD "").length < 6) :
    settingsPostBody s sess user form
      = ⟨{ s with
           users := updateUser s.users user.id
             ⟨user.id,
              (if pyStrip (form.username.getD "") ≠ "" ∧ pyStrip (form.username.getD "") ≠ user.username
               then pyStrip (form.username.getD "") else user.username),
              generate_password_hash (form.new_password.getD ""),
              pyStrip (form.about.getD "")⟩ },
          sess, .redirect .settings, [⟨"Settings updated successfully.", "success"⟩]⟩ := by
  simp only [settingsPostBody]
  rw [if_neg hno, if_pos (Or.inl hcp), if_neg hcp, if_neg (not_not_intro hchk),
    if_neg (not_not_intro heq), if_neg hlen]
  split_ifs <;> rfl

/-- Settings branch: with all three password fields blank, the row commits
with the (possibly renamed) username, the submitted about text, and the
password hash untouched. -/
theorem settingsPostBody_commit_nopw (s : Store) (sess : Option Nat) (user : User)
    (form : SettingsForm)
    (hno : ¬ ((pyStrip (form.username.getD "") ≠ "" ∧ pyStrip (form.username.getD "") ≠ user.username)
      ∧ (findByUsername s.users (pyStrip (form.username.getD ""))).isSome))
    (hcp : form.current_password.getD "" = "")
    (hnp : form.new_password.getD "" = "")
    (hcnp : form.confirm_new_password.getD "" = "") :
    settingsPostBody s sess user form
      = ⟨{ s with
           users := updateUser s.users user.id
             ⟨user.id,
              (if pyStrip (form.username.getD "") ≠ "" ∧ pyStrip (form.username.getD "") ≠ user.username
               then pyStrip (form.username.getD "") else user.username),
              user.password_hash,
              pyStrip (form.about.getD "")⟩ },
          sess, .redirect .settings, [⟨"Settings updated successfully.", "success"⟩]⟩ := by
  simp only [settingsPostBody]
  rw [if_neg hno,
    if_neg (not_or.mpr ⟨not_not_intro hcp, not_or.mpr ⟨not_not_intro hnp, not_not_intro hcnp⟩⟩)]
  split_ifs <;> rfl

/-! ## C8 — settings validation -/

/-- C8: for a POST to /settings by the current user: a requested rename
colliding with an existing row's name is rejected with a message; a password
change (requested by filling any of the three password fields, the rename
check having passed) is rejected with a message when the current password is
missing, fails the hash check, when the new password and confirmation differ,
or when the new password is shorter than 6 characters; and otherwise the
committed row's stored hash is the hash of the new password. -/
theorem settings_validation (s : Store) (sess : Option Nat) (user : User) (form : SettingsForm)
    (hcu : current_user s sess = some user) :
    ((pyStrip (form.username.getD "") ≠ "" ∧ pyStrip (form.username.getD "") ≠ user.username)
      ∧ (findByUsername s.users (pyStrip (form.username.getD ""))).isSome →
       settingsPost s sess form
         = ⟨s, sess, .redirect .settings, [⟨"Username already taken.", "danger"⟩]⟩)
    ∧ (¬ ((pyStrip (form.username.getD "") ≠ "" ∧ pyStrip (form.username.getD "") ≠ user.username)
        ∧ (findByUsername s.users (pyStrip (form.username.getD ""))).isSome) →
       form.current_password.getD "" = "" →
       (form.new_password.getD "" ≠ "" ∨ form.confirm_new_password.getD "" ≠ "") →
       settingsPost s sess form
         = ⟨s, sess, .redirect .settings,
             [⟨"Please enter your current password to change password.", "warning"⟩]⟩)
    ∧ (¬ ((pyStrip (form.username.getD "") ≠ "" ∧ pyStrip (form.username.getD "") ≠ user.username)
        ∧ (findByUsername s.users (pyStrip (form.username.getD ""))).isSome) →
       form.current_password.getD "" ≠ "" →
       ¬ check_password_hash user.password_hash (form.current_password.getD "") →
       settingsPost s sess form
         = ⟨s, sess, .redirect .settings, [⟨"Current password is incorrect.", "danger"⟩]⟩)
    ∧ (¬ ((pyStrip (form.username.getD "") ≠ "" ∧ pyStrip (form.username.getD "") ≠ user.username)
        ∧ (findByUsername s.users (pyStrip (form.username.getD ""))).isSome) →
       form.current_password.getD "" ≠ "" →
       check_password_hash user.password_hash (form.current_password.getD "") →
       form.new_password.getD "" ≠ form.confirm_new_password.getD "" →
       settingsPost s sess form
         = ⟨s, sess, .redirect .settings, [⟨"New passwords do not match.", "danger"⟩]⟩)
    ∧ (¬ ((pyStrip (form.username.getD "") ≠ "" ∧ pyStrip (form.username.getD "") ≠ user.username)
        ∧ (findByUsername s.users (pyStrip (form.username.getD ""))).isSome) →
       form.current_password.getD "" ≠ "" →
       check_password_hash user.password_hash (form.current_password.getD "") →
       form.new_password.getD "" = form.confirm_new_password.getD "" →
       (form.new_password.getD "").length < 6 →
       settingsPost s sess form
         = ⟨s, sess, .redirect .settings,
             [⟨"New password must be at least 6 characters.", "warning"⟩]⟩)
    ∧ (¬ ((pyStrip (form.username.getD "") ≠ "" ∧ pyStrip (form.username.getD "") ≠ user.username)
        ∧ (findByUsername s.users (pyStrip (form.username.getD ""))).isSome) →
       form.current_password.getD "" ≠ "" →
       check_password_hash user.password_hash (form.current_password.getD "") →
       form.new_password.getD "" = form.confirm_new_password.getD "" →
       ¬ (form.new_password.getD "").length < 6 →
       settingsPost s sess form
         = ⟨{ s with
              users := updateUser s.users user.id
                ⟨user.id,
                 (if pyStrip (form.username.getD "") ≠ "" ∧ pyStrip (form.username.getD "") ≠ user.username
                  then pyStrip (form.username.getD "") else user.username),
                 generate_password_hash (form.new_password.getD ""),
                 pyStrip (form.about.getD "")⟩ },
             sess, .redirect .settings, [⟨"Settings updated successfully.", "success"⟩]⟩) :=
  ⟨fun h => (settingsPost_unfold s sess user form hcu).trans
      (settingsPostBody_collision s sess user form h),
   fun hno hcp hany => (settingsPost_unfold s sess user form hcu).trans
      (settingsPostBody_no_current s sess user form hno hcp hany),
   fun hno hcp hchk => (settingsPost_unfold s sess user form hcu).trans
      (settingsPostBody_bad_current s sess user form hno hcp hchk),
   fun hno hcp hchk hne => (settingsPost_unfold s sess user form hcu).trans
      (settingsPostBody_mismatch s sess user form hno hcp hchk hne),
   fun hno hcp hchk heq hlen => (settingsPost_unfold s sess user form hcu).trans
      (settingsPostBody_short s sess user form hno hcp hchk heq hlen),
   fun hno hcp hchk heq hlen => (settingsPost_unfold s sess user form hcu).trans
      (settingsPostBody_commit_pw s sess user form hno hcp hchk heq hlen)⟩

/-- C8 witness: alice submits her correct current password and the matching
new password "newpass99" (no rename); the committed row stores the hash of
"newpass99". -/
theorem settings_validation_w :
    settingsPost aliceStore (some 1) ⟨none, none, some "pw123456", some "newpass99", some "newpass99"⟩
      = ⟨⟨[⟨1, "alice", generate_password_hash "newpass99", ""⟩], [], [], 2, 1, 1⟩,
          some 1, .redirect .settings, [⟨"Settings updated successfully.", "success"⟩]⟩ :=
  (settings_validation aliceStore (some 1) alice
      ⟨none, none, some "pw123456", some "newpass99", some "newpass99"⟩ rfl).2.2.2.2.2
    (by decide) (by decide) (by decide) rfl (by decide)

/-! ## C9 — failed settings POSTs commit nothing -/

/-- C9: every validation-failing POST to /settings — username collision,
missing or incorrect current password, new-password mismatch, or a new
password shorter than 6 characters — leaves the store exactly as it was: the
username and about assignments already applied to the in-memory object are
not persisted, because the handler redirects before the single commit. -/
theorem settings_failure_preserves_store (s : Store) (sess : Option Nat) (user : User)
    (form : SettingsForm) (hcu : current_user s sess = some user) :
    ((pyStrip (form.username.getD "") ≠ "" ∧ pyStrip (form.username.getD "") ≠ user.username)
      ∧ (findByUsername s.users (pyStrip (form.username.getD ""))).isSome →
       (settingsPost s sess form).store = s)
    ∧ (¬ ((pyStrip (form.username.getD "") ≠ "" ∧ pyStrip (form.username.getD "") ≠ user.username)
        ∧ (findByUsername s.users (pyStrip (form.username.getD ""))).isSome) →
       form.current_password.getD "" = "" →
       (form.new_password.getD "" ≠ "" ∨ form.confirm_new_password.getD "" ≠ "") →
       (settingsPost s sess form).store = s)
    ∧ (¬ ((pyStrip (form.username.getD "") ≠ "" ∧ pyStrip (form.username.getD "") ≠ user.username)
        ∧ (findByUsername s.users (pyStrip (form.username.getD ""))).isSome) →
       form.current_password.getD "" ≠ "" →
       ¬ check_password_hash user.password_hash (form.current_password.getD "") →
       (settingsPost s sess form).store = s)
    ∧ (¬ ((pyStrip (form.username.getD "") ≠ "" ∧ pyStrip (form.username.getD "") ≠ user.username)
        ∧ (findByUsername s.users (pyStrip (form.username.getD ""))).isSome) →
       form.current_password.getD "" ≠ "" →
       check_password_hash user.password_hash (form.current_password.getD "") →
       form.new_password.getD "" ≠ form.confirm_new_password.getD "" →
       (settingsPost s sess form).store = s)
    ∧ (¬ ((pyStrip (form.username.getD "") ≠ "" ∧ pyStrip (form.username.getD "") ≠ user.username)
        ∧ (findByUsername s.users (pyStrip (form.username.getD ""))).isSome) →
       form.current_password.getD "" ≠ "" →
       check_password_hash user.password_hash (form.current_password.getD "") →
       form.new_password.getD "" = form.confirm_new_password.getD "" →
       (form.new_password.getD "").length < 6 →
       (settingsPost s sess form).store = s) :=
  ⟨fun h => by
      rw [settingsPost_unfold s sess user form hcu, settingsPostBody_collision s sess user form h],
   fun hno hcp hany => by
      rw [settingsPost_unfold s sess user form hcu,
        settingsPostBody_no_current s sess user form hno hcp hany],
   fun hno hcp hchk => by
      rw [settingsPost_unfold s sess user form hcu,
        settingsPostBody_bad_current s sess user form hno hcp hchk],
   fun hno hcp hchk hne => by
      rw [settingsPost_unfold s sess user form hcu,
        settingsPostBody_mismatch s sess user form hno hcp hchk hne],
   fun hno hcp hchk heq hlen => by
      rw [settingsPost_unfold s sess user form hcu,
        settingsPostBody_short s sess user form hno hcp hchk heq hlen]⟩

/-- C9 witness: alice tries to rename to "alicia" and change her password
with a wrong current password; after the request her row is exactly as
before — the in-memory rename was not committed. -/
theorem settings_failure_preserves_store_w :
    (settingsPost aliceStore (some 1)
        ⟨some "alicia", some "new about", some "wrongpw", some "abcdef", some "abcdef"⟩).store
      = aliceStore :=
  (settings_failure_preserves_store aliceStore (some 1) alice
      ⟨some "alicia", some "new about", some "wrongpw", some "abcdef", some "abcdef"⟩ rfl).2.2.1
    (by decide) (by decide) (by decide)

/-! ## C10 — frame of a successful settings POST -/

/-- C10: on every successful POST to /settings — with all three password
fields blank or with a valid password change, renaming or not — the committed
row's about field is exactly the submitted value stripped, a missing or blank
about field setting it to the empty string since the form reads `getD ""`,
while a blank username field, or one equal to the current name, leaves the
stored username unchanged. -/
theorem settings_success_frame (s : Store) (sess : Option Nat) (user : User)
    (form : SettingsForm) (hcu : current_user s sess = some user) :
    (¬ ((pyStrip (form.username.getD "") ≠ "" ∧ pyStrip (form.username.getD "") ≠ user.username)
      ∧ (findByUsername s.users (pyStrip (form.username.getD ""))).isSome) →
     form.current_password.getD "" = "" → form.new_password.getD "" = "" →
     form.confirm_new_password.getD "" = "" →
       settingsPost s sess form
         = ⟨{ s with
              users := updateUser s.users user.id
                ⟨user.id,
                 (if pyStrip (form.username.getD "") ≠ "" ∧ pyStrip (form.username.getD "") ≠ user.username
                  then pyStrip (form.username.getD "") else user.username),
                 user.password_hash,
                 pyStrip (form.about.getD "")⟩ },
             sess, .redirect .settings, [⟨"Settings updated successfully.", "success"⟩]⟩)
    ∧ (pyStrip (form.username.getD "") = "" ∨ pyStrip (form.username.getD "") = user.username →
       form.current_password.getD "" = "" → form.new_password.getD "" = "" →
       form.confirm_new_password.getD "" = "" →
       settingsPost s sess form
         = ⟨{ s with
              users := updateUser s.users user.id
                ⟨user.id, user.username, user.password_hash, pyStrip (form.about.getD "")⟩ },
             sess, .redirect .settings, [⟨"Settings updated successfully.", "success"⟩]⟩)
    ∧ (pyStrip (form.username.getD "") = "" ∨ pyStrip (form.username.getD "") = user.username →
       form.current_password.getD "" ≠ "" →
       check_password_hash user.password_hash (form.current_password.getD "") →
       form.new_password.getD "" = form.confirm_new_password.getD "" →
       ¬ (form.new_password.getD "").length < 6 →
       settingsPost s sess form
         = ⟨{ s with
              users := updateUser s.users user.id
                ⟨user.id, user.username, generate_password_hash (form.new_password.getD ""),
                 pyStrip (form.about.getD "")⟩ },
             sess, .redirect .settings, [⟨"Settings updated successfully.", "success"⟩]⟩)
    ∧ (¬ ((pyStrip (form.username.getD "") ≠ "" ∧ pyStrip (form.username.getD "") ≠ user.username)
        ∧ (findByUsername s.users (pyStrip (form.username.getD ""))).isSome) →
       form.current_password.getD "" ≠ "" →
       check_password_hash user.password_hash (form.current_password.getD "") →
       form.new_password.getD "" = form.confirm_new_password.getD "" →
       ¬ (form.new_password.getD "").length < 6 →
       settingsPost s sess form
         = ⟨{ s with
              users := updateUser s.users user.id
                ⟨user.id,
                 (if pyStrip (form.username.getD "") ≠ "" ∧ pyStrip (form.username.getD "") ≠ user.username
                  then pyStrip (form.username.getD "") else user.username),
                 generate_password_hash (form.new_password.getD ""),
                 pyStrip (form.about.getD "")⟩ },
             sess, .redirect .settings, [⟨"Settings updated successfully.", "success"⟩]⟩) := by
  refine ⟨?_, ?_, ?_, ?_⟩
  · intro hno hcp hnp hcnp
    rw [settingsPost_unfold s sess user form hcu,
      settingsPostBody_commit_nopw s sess user form hno hcp hnp hcnp]
  · intro hnu hcp hnp hcnp
    have hc : ¬ (pyStrip (form.username.getD "") ≠ "" ∧ pyStrip (form.username.getD "") ≠ user.username) := by
      rcases hnu with h | h
      · exact fun hh => hh.1 h
      · exact fun hh => hh.2 h
    rw [settingsPost_unfold s sess user form hcu,
      settingsPostBody_commit_nopw s sess user form (fun hh => hc hh.1) hcp hnp hcnp, if_neg hc]
  · intro hnu hcp hchk heq hlen
    have hc : ¬ (pyStrip (form.username.getD "") ≠ "" ∧ pyStrip (form.username.getD "") ≠ user.username) := by
      rcases hnu with h | h
      · exact fun hh => hh.1 h
      · exact fun hh => hh.2 h
    rw [settingsPost_unfold s sess user form hcu,
      settingsPostBody_commit_pw s sess user form (fun hh => hc hh.1) hcp hchk heq hlen, if_neg hc]
  · intro hno hcp hchk heq hlen
    rw [settingsPost_unfold s sess user form hcu,
      settingsPostBody_commit_pw s sess user form hno hcp hchk heq hlen]

/-- C10 witness: alice submits her unchanged username "alice", a new about
text with surrounding whitespace, and no password fields — the committed row
keeps username and hash and stores the stripped about text; and in a second
request she renames to "alicia" while validly changing her password — the
committed row carries the new name, the new hash, and the submitted about
text. -/
theorem settings_success_frame_w :
    settingsPost aliceStore (some 1) ⟨some "alice", some "  hi there  ", none, none, none⟩
      = ⟨⟨[⟨1, "alice", generate_password_hash "pw123456", "hi there"⟩], [], [], 2, 1, 1⟩,
          some 1, .redirect .settings, [⟨"Settings updated successfully.", "success"⟩]⟩
    ∧ settingsPost aliceStore (some 1)
        ⟨some "alicia", some "bio", some "pw123456", some "newpass99", some "newpass99"⟩
      = ⟨⟨[⟨1, "alicia", generate_password_hash "newpass99", "bio"⟩], [], [], 2, 1, 1⟩,
          some 1, .redirect .settings, [⟨"Settings updated successfully.", "success"⟩]⟩ :=
  ⟨(settings_success_frame aliceStore (some 1) alice
      ⟨some "alice", some "  hi there  ", none, none, none⟩ rfl).2.1
    (Or.inr (by decide)) rfl rfl rfl,
   (settings_success_frame aliceStore (some 1) alice
      ⟨some "alicia", some "bio", some "pw123456", some "newpass99", some "newpass99"⟩ rfl).2.2.2
    (by decide) (by decide) (by decide) rfl (by decide)⟩

end FriendBook
